/-
  Verification of core behaviors of Server Monitoring Made Easy
  (timmyb824/server-monitoring-made-easy).

  Shallow embedding of the relevant Python modules:
  - app/core/monitor.py      : Monitor.check debounce state machine
  - app/monitors/ping.py     : PingMonitor.check_threshold (live variant)
  - app/core/metrics.py      : legacy PingMonitor / DiskMonitor variants
  - app/monitors/memory.py   : MemoryMonitor.collect
  - app/core/alerts.py       : AlertManager.process_alert
  - app/core/storage_file.py : FileAlertStorage (save/resolve/prune)
  - app/core/storage_postgres.py : PostgresAlertStorage (retry loop, queries)

  Times are modelled as integers (unix seconds); measurement values are a
  type parameter where the Python code is polymorphic.
-/
import Mathlib

namespace SME

/-! ## app/core/monitor.py -/

/-- Monitor debounce states: `self.alert_state` is the string "OK" or "FIRING". -/
inductive AlertState where
  | OK
  | FIRING
deriving DecidableEq, Repr

/-- Alert event states that `Monitor.check` can emit. -/
inductive AlertKind where
  | FIRING
  | OK
  | ERROR
deriving DecidableEq, Repr

/-- Monitor configuration, from `Monitor.__init__`:
`enabled`, `interval`, `threshold`, `alert_count`. -/
structure MonitorConfig where
  enabled : Bool
  interval : Int
  alertCount : Nat
deriving Repr

/-- Mutable monitor state, from `Monitor.__init__`:
`last_check`, `last_value`, `alert_state`, `consecutive_failures`. -/
structure MonitorState (Val : Type) where
  lastCheck : Int
  lastValue : Option Val
  alertState : AlertState
  consecutiveFailures : Nat
deriving Repr, DecidableEq

/-- The alert dictionary returned by `Monitor.check`. -/
structure Alert (Val : Type) where
  monitor : String
  state : AlertKind
  value : Option Val
  timestamp : Int
  consecutiveFailures : Option Nat
  error : Option String
deriving Repr, DecidableEq

/-- `Monitor.should_check`: elapsed time since `last_check` is at least
`interval`. -/
def shouldCheck {Val : Type} (cfg : MonitorConfig) (st : MonitorState Val)
    (now : Int) : Bool :=
  cfg.interval ≤ now - st.lastCheck

/-- `Monitor.check`.  `collectResult` is the outcome of `self.collect()`
(`Except.error` models a raised exception), `checkThreshold` is the
subclass's `check_threshold`, `now` the current wall-clock time.
Returns the updated state and the optional alert dictionary. -/
def check {Val : Type} (name : String) (cfg : MonitorConfig)
    (checkThreshold : Val → Bool) (st : MonitorState Val) (now : Int)
    (collectResult : Except String Val) :
    MonitorState Val × Option (Alert Val) :=
  if !cfg.enabled then (st, none)
  else if !shouldCheck cfg st now then (st, none)
  else
    match collectResult with
    | .error e =>
        (st, some { monitor := name, state := .ERROR, value := none,
                    timestamp := now, consecutiveFailures := none,
                    error := some e })
    | .ok v =>
        let st1 : MonitorState Val :=
          { st with lastCheck := now, lastValue := some v }
        if checkThreshold v then
          let st2 : MonitorState Val :=
            { st1 with consecutiveFailures := st1.consecutiveFailures + 1 }
          if cfg.alertCount ≤ st2.consecutiveFailures then
            if st2.alertState = .OK then
              ({ st2 with alertState := .FIRING },
               some { monitor := name, state := .FIRING, value := some v,
                      timestamp := now,
                      consecutiveFailures := some st2.consecutiveFailures,
                      error := none })
            else (st2, none)
          else (st2, none)
        else
          let st2 : MonitorState Val := { st1 with consecutiveFailures := 0 }
          if st2.alertState = .FIRING then
            ({ st2 with alertState := .OK },
             some { monitor := name, state := .OK, value := some v,
                    timestamp := now, consecutiveFailures := none,
                    error := none })
          else (st2, none)

end SME

namespace SME

/-! ## C1: FIRING only at a breaching sample that reaches alert_count from OK -/

/-- **C1.** Whenever `Monitor.check` returns a FIRING alert, the sample
breached the threshold, the pre-invocation alert_state was OK, and the
consecutive-failure counter has reached `alert_count` at emission time
(it is the pre-state counter plus one); hence no FIRING alert is emitted
while `consecutive_failures < alert_count`. -/
theorem check_firing_only_on_sustained_breach {Val : Type} (name : String)
    (cfg : MonitorConfig) (f : Val → Bool) (st : MonitorState Val) (now : Int)
    (r : Except String Val) (st' : MonitorState Val) (a : Alert Val)
    (h : check name cfg f st now r = (st', some a))
    (hF : a.state = AlertKind.FIRING) :
    (∃ v, r = Except.ok v ∧ f v = true) ∧
      st.alertState = AlertState.OK ∧
      st'.consecutiveFailures = st.consecutiveFailures + 1 ∧
      cfg.alertCount ≤ st'.consecutiveFailures := by
  unfold check at h
  split at h
  · simp at h
  · split at h
    · simp at h
    · split at h
      · rename_i e
        simp only [Prod.mk.injEq, Option.some.injEq] at h
        rw [← h.2] at hF
        simp at hF
      · rename_i v
        dsimp only at h
        split at h
        · split at h
          · split at h
            · rename_i hcnt hok
              simp only [Prod.mk.injEq, Option.some.injEq] at h
              refine ⟨⟨v, rfl, by assumption⟩, hok, ?_, ?_⟩
              · rw [← h.1]
              · rw [← h.1]; exact hcnt
            · simp at h
          · simp at h
        · split at h
          · rename_i hfir
            simp only [Prod.mk.injEq, Option.some.injEq] at h
            rw [← h.2] at hF
            simp at hF
          · simp at h

/-! ## C2: one FIRING and one OK per sustained breach episode -/

/-- Repeated invocation of `Monitor.check` over a list of `(time, sample)`
pairs; collects the emitted alerts in order.  For samples where `collect()`
succeeds this coincides with what the driving loop of `app/cli.py` does —
the loop forwards to `check` only after its own `collect()` call succeeds
(see `loopTick` for the loop itself, including its error path). -/
def runCheck {Val : Type} (name : String) (cfg : MonitorConfig)
    (f : Val → Bool) :
    MonitorState Val → List (Int × Except String Val) →
      MonitorState Val × List (Alert Val)
  | st, [] => (st, [])
  | st, (t, r) :: rest =>
      let step := check name cfg f st t r
      let tail := runCheck name cfg f step.1 rest
      (tail.1, step.2.toList ++ tail.2)

lemma check_ok_breach_fires {Val : Type} (name : String) (cfg : MonitorConfig)
    (f : Val → Bool) (st : MonitorState Val) (T : Int) (v : Val)
    (hen : cfg.enabled = true) (hdue : shouldCheck cfg st T = true)
    (hbr : f v = true) (hok : st.alertState = AlertState.OK)
    (hcnt : cfg.alertCount ≤ st.consecutiveFailures + 1) :
    check name cfg f st T (Except.ok v) =
      (⟨T, some v, AlertState.FIRING, st.consecutiveFailures + 1⟩,
       some ⟨name, AlertKind.FIRING, some v, T,
             some (st.consecutiveFailures + 1), none⟩) := by
  unfold check
  simp [hen, hdue, hbr, hok, hcnt]

lemma check_ok_breach_accumulates {Val : Type} (name : String)
    (cfg : MonitorConfig) (f : Val → Bool) (st : MonitorState Val) (T : Int)
    (v : Val) (hen : cfg.enabled = true) (hdue : shouldCheck cfg st T = true)
    (hbr : f v = true) (hcnt : ¬ cfg.alertCount ≤ st.consecutiveFailures + 1) :
    check name cfg f st T (Except.ok v) =
      (⟨T, some v, st.alertState, st.consecutiveFailures + 1⟩, none) := by
  unfold check
  simp [hen, hdue, hbr, hcnt]

lemma check_firing_breach_silent {Val : Type} (name : String)
    (cfg : MonitorConfig) (f : Val → Bool) (st : MonitorState Val) (T : Int)
    (v : Val) (hen : cfg.enabled = true) (hdue : shouldCheck cfg st T = true)
    (hbr : f v = true) (hfir : st.alertState = AlertState.FIRING) :
    check name cfg f st T (Except.ok v) =
      (⟨T, some v, AlertState.FIRING, st.consecutiveFailures + 1⟩, none) := by
  unfold check
  simp [hen, hdue, hbr, hfir]

lemma check_firing_recovers {Val : Type} (name : String) (cfg : MonitorConfig)
    (f : Val → Bool) (st : MonitorState Val) (T : Int) (v : Val)
    (hen : cfg.enabled = true) (hdue : shouldCheck cfg st T = true)
    (hbr : f v = false) (hfir : st.alertState = AlertState.FIRING) :
    check name cfg f st T (Except.ok v) =
      (⟨T, some v, AlertState.OK, 0⟩,
       some ⟨name, AlertKind.OK, some v, T, none, none⟩) := by
  unfold check
  simp [hen, hdue, hbr, hfir]

lemma shouldCheck_at_self {Val : Type} (cfg : MonitorConfig)
    (st : MonitorState Val) (T : Int) (hint : cfg.interval ≤ 0)
    (hlc : st.lastCheck = T) : shouldCheck cfg st T = true := by
  unfold shouldCheck
  rw [hlc]
  simpa using hint

lemma runCheck_append {Val : Type} (name : String) (cfg : MonitorConfig)
    (f : Val → Bool) :
    ∀ (l1 l2 : List (Int × Except String Val)) (st : MonitorState Val),
      runCheck name cfg f st (l1 ++ l2) =
        ((runCheck name cfg f (runCheck name cfg f st l1).1 l2).1,
         (runCheck name cfg f st l1).2 ++
           (runCheck name cfg f (runCheck name cfg f st l1).1 l2).2) := by
  intro l1
  induction l1 with
  | nil => intro l2 st; simp [runCheck]
  | cons hd tl ih =>
      intro l2 st
      obtain ⟨t, r⟩ := hd
      simp only [List.cons_append, runCheck, List.append_eq]
      rw [ih]
      simp [List.append_assoc]

/-- While already FIRING, further breaching samples at time `T` emit nothing
and only increment the counter. -/
lemma runCheck_firing_phase {Val : Type} (name : String) (cfg : MonitorConfig)
    (f : Val → Bool) (v : Val) (T : Int) (hen : cfg.enabled = true)
    (hint : cfg.interval ≤ 0) (hbr : f v = true) :
    ∀ (j : Nat) (st : MonitorState Val),
      st.alertState = AlertState.FIRING → st.lastCheck = T →
      st.lastValue = some v →
      runCheck name cfg f st (List.replicate j (T, Except.ok v)) =
        (⟨T, some v, AlertState.FIRING, st.consecutiveFailures + j⟩, []) := by
  intro j
  induction j with
  | zero =>
      rintro ⟨lc, lv, a, cf⟩ hfir hlc hlv
      dsimp at hfir hlc hlv
      subst hfir
      subst hlc
      subst hlv
      simp [runCheck]
  | succ n ih =>
      intro st hfir hlc hlv
      rw [List.replicate_succ]
      simp only [runCheck]
      rw [check_firing_breach_silent name cfg f st T v hen
        (shouldCheck_at_self cfg st T hint hlc) hbr hfir]
      rw [ih ⟨T, some v, AlertState.FIRING, st.consecutiveFailures + 1⟩
        rfl rfl rfl]
      simp only [Option.toList_none, List.nil_append]
      rw [show st.consecutiveFailures + 1 + n =
        st.consecutiveFailures + (n + 1) from by omega]

/-- From OK with the counter below `alert_count`, a run of `j` breaching
samples reaching `alert_count` emits exactly one FIRING alert (carrying
`consecutive_failures = alert_count`) and ends FIRING. -/
lemma runCheck_accumulate_phase {Val : Type} (name : String)
    (cfg : MonitorConfig) (f : Val → Bool) (v : Val) (T : Int)
    (hen : cfg.enabled = true) (hint : cfg.interval ≤ 0) (hbr : f v = true) :
    ∀ (j : Nat) (st : MonitorState Val),
      st.alertState = AlertState.OK →
      shouldCheck cfg st T = true →
      st.consecutiveFailures < cfg.alertCount →
      cfg.alertCount ≤ st.consecutiveFailures + j →
      runCheck name cfg f st (List.replicate j (T, Except.ok v)) =
        (⟨T, some v, AlertState.FIRING, st.consecutiveFailures + j⟩,
         [⟨name, AlertKind.FIRING, some v, T, some cfg.alertCount, none⟩]) := by
  intro j
  induction j with
  | zero =>
      intro st _ _ hlt hge
      omega
  | succ n ih =>
      intro st hok hdue hlt hge
      rw [List.replicate_succ]
      simp only [runCheck]
      by_cases hreach : cfg.alertCount ≤ st.consecutiveFailures + 1
      · have hcnt : st.consecutiveFailures + 1 = cfg.alertCount := by omega
        rw [check_ok_breach_fires name cfg f st T v hen hdue hbr hok hreach]
        rw [runCheck_firing_phase name cfg f v T hen hint hbr n
          ⟨T, some v, AlertState.FIRING, st.consecutiveFailures + 1⟩
          rfl rfl rfl]
        simp only [Option.toList_some, List.append_nil, List.cons_append,
          List.nil_append]
        rw [show st.consecutiveFailures + 1 + n =
          st.consecutiveFailures + (n + 1) from by omega, hcnt]
      · rw [check_ok_breach_accumulates name cfg f st T v hen hdue hbr hreach]
        rw [ih ⟨T, some v, st.alertState, st.consecutiveFailures + 1⟩
          hok (shouldCheck_at_self cfg _ T hint rfl) (by dsimp; omega)
          (by dsimp; omega)]
        simp only [Option.toList_none, List.nil_append]
        rw [show st.consecutiveFailures + 1 + n =
          st.consecutiveFailures + (n + 1) from by omega]

/-- **C2.** A sustained breach episode — `k ≥ alert_count` consecutive
breaching samples starting from the quiescent state, followed by one
non-breaching sample — emits exactly one FIRING alert and exactly one OK
alert, no matter how large `k` is, and the final state is quiescent again;
moreover a single non-breaching sample at a due invocation always resets
`consecutive_failures` to 0. -/
theorem sustained_episode_one_firing_one_ok {Val : Type} (name : String)
    (cfg : MonitorConfig) (f : Val → Bool) (st : MonitorState Val)
    (vb vg : Val) (T : Int) (k : Nat)
    (hen : cfg.enabled = true) (hint : cfg.interval ≤ 0)
    (hdue : shouldCheck cfg st T = true)
    (hok : st.alertState = AlertState.OK) (hcf : st.consecutiveFailures = 0)
    (hc1 : 1 ≤ cfg.alertCount) (hk : cfg.alertCount ≤ k)
    (hbr : f vb = true) (hgd : f vg = false) :
    runCheck name cfg f st
        (List.replicate k (T, Except.ok vb) ++ [(T, Except.ok vg)]) =
      (⟨T, some vg, AlertState.OK, 0⟩,
       [⟨name, AlertKind.FIRING, some vb, T, some cfg.alertCount, none⟩,
        ⟨name, AlertKind.OK, some vg, T, none, none⟩]) ∧
    (∀ (st' : MonitorState Val) (t : Int) (v : Val),
      shouldCheck cfg st' t = true → f v = false →
      (check name cfg f st' t (Except.ok v)).1.consecutiveFailures = 0) := by
  constructor
  · rw [runCheck_append]
    rw [runCheck_accumulate_phase name cfg f vb T hen hint hbr k st hok hdue
      (by omega) (by omega)]
    simp only [runCheck]
    rw [check_firing_recovers name cfg f
      ⟨T, some vb, AlertState.FIRING, st.consecutiveFailures + k⟩ T vg hen
      (shouldCheck_at_self cfg _ T hint rfl) hgd rfl]
    simp [runCheck]
  · intro st' t v hdue' hgd'
    unfold check
    simp only [hen, hdue', hgd', Bool.not_true, Bool.false_eq_true, if_false]
    split
    · rfl
    · rfl

/-- Witness for C2: alert_count 2, an episode of 4 breaching samples then
recovery emits exactly FIRING then OK. -/
theorem sustained_episode_one_firing_one_ok_witness :
    (runCheck "cpu" ⟨true, 0, 2⟩ (fun v : Int => decide (80 < v))
        ⟨0, none, AlertState.OK, 0⟩
        (List.replicate 4 ((3 : Int), Except.ok (90 : Int)) ++
          [((3 : Int), Except.ok (70 : Int))]) =
      (⟨3, some 70, AlertState.OK, 0⟩,
       [⟨"cpu", AlertKind.FIRING, some 90, 3, some 2, none⟩,
        ⟨"cpu", AlertKind.OK, some 70, 3, none, none⟩]) ∧
    (∀ (st' : MonitorState Int) (t : Int) (v : Int),
      shouldCheck ⟨true, 0, 2⟩ st' t = true → decide (80 < v) = false →
      (check "cpu" ⟨true, 0, 2⟩ (fun v : Int => decide (80 < v)) st' t
        (Except.ok v)).1.consecutiveFailures = 0)) :=
  sustained_episode_one_firing_one_ok "cpu" ⟨true, 0, 2⟩
    (fun v : Int => decide (80 < v)) ⟨0, none, AlertState.OK, 0⟩ 90 70 3 4
    rfl (by decide) (by decide) rfl rfl (by decide) (by decide) (by decide)
    (by decide)

/-! ## app/monitors/ping.py and app/core/metrics.py : ping threshold checks -/

/-- `PingMonitor.check_threshold` from `app/monitors/ping.py` (the variant the
CLI imports): `any(ping_time and ping_time > self.threshold for ping_time in
value.values())`.  Python truthiness: `None` and `0` short-circuit `and` to a
falsy value, so such entries contribute `false`. -/
def pingCheckThreshold (threshold : Int)
    (value : List (String × Option Int)) : Bool :=
  value.any fun p =>
    match p.2 with
    | none => false
    | some t => if t = 0 then false else decide (threshold < t)

/-- `PingMonitor.check_threshold` from `app/core/metrics.py` (the legacy
variant): iterates the targets, returns true on the first `None` latency or
the first latency above the threshold. -/
def metricsPingCheckThreshold (threshold : Int) :
    List (String × Option Int) → Bool
  | [] => false
  | (_, none) :: _ => true
  | (_, some l) :: rest =>
      if threshold < l then true else metricsPingCheckThreshold threshold rest

/-! ## C3: is a missing ping reply a breach? -/

/-- **C3.** With threshold 200 and sample `{a: 50, b: None}`, the live ping
`check_threshold` (`app/monitors/ping.py`, the one the CLI uses) returns
false — the missing reply for `b` is coerced to falsy by `ping_time and
ping_time > threshold` — while the legacy variant in `app/core/metrics.py`
returns true as the claim states. -/
theorem ping_missing_reply_not_breach_in_live_code :
    pingCheckThreshold 200 [("a", some 50), ("b", none)] = false ∧
    metricsPingCheckThreshold 200 [("a", some 50), ("b", none)] = true := by
  constructor
  · rfl
  · rfl

/-! ## app/monitors/memory.py and app/core/metrics.py : collectors -/

/-- `read_cgroup_memory` from `app/monitors/memory.py`: returns parsed
`(MemTotal, MemAvailable)` in bytes; any exception while reading or parsing
yields `(0, 0)`.  The parsed outcome (or the exception) is the input. -/
def readCgroupMemory (res : Option (Nat × Nat)) : Nat × Nat :=
  match res with
  | some ta => ta
  | none => (0, 0)

/-- `MemoryMonitor.collect` from `app/monitors/memory.py`.  `inContainer`
models `os.getenv("CONTAINER") == "1"`; `cgroup` the outcome of reading
`/proc/meminfo`; `psutilMem` the `(total, available)` pair from
`psutil.virtual_memory()`.  Returns the used-memory percentage; note the
`total == 0` branch returns the plain value `0.0`, not an error. -/
def memoryCollect (inContainer : Bool) (cgroup : Option (Nat × Nat))
    (psutilMem : Nat × Nat) : ℚ :=
  let ta :=
    if inContainer then
      let ta := readCgroupMemory cgroup
      if ta.1 = 0 then psutilMem else ta
    else psutilMem
  if ta.1 = 0 then 0
  else ((ta.1 : ℚ) - (ta.2 : ℚ)) / (ta.1 : ℚ) * 100

/-- Outcome of `psutil.disk_usage(path)` as seen by `DiskMonitor.collect`
in `app/core/metrics.py`. -/
inductive DiskUsageOutcome where
  | ok (percent : ℚ)
  | permissionDenied
  | otherFailure (msg : String)
deriving DecidableEq, Repr

/-- `DiskMonitor.collect` from `app/core/metrics.py`: a `PermissionError` is
caught, logged, and turned into the plain value `0.0`; any other exception
propagates to `Monitor.check`. -/
def metricsDiskCollect (usage : DiskUsageOutcome) : Except String ℚ :=
  match usage with
  | .ok p => .ok p
  | .permissionDenied => .ok 0
  | .otherFailure msg => .error msg

/-! ## C9: are collection faults ever reported as a plain zero? -/

/-- **C9 (amended).** A collection fault that raises is indeed surfaced by
`Monitor.check` as an ERROR alert; but `collect` itself can return the plain
value 0 for a failed measurement: `MemoryMonitor.collect` returns `0.0`
whenever the memory total reads as 0 (e.g. both the cgroup read and the
psutil query fail to produce a total), and the `metrics.py`
`DiskMonitor.collect` returns `0.0` on a `PermissionError`. -/
theorem collect_fault_error_alert_but_zero_fallbacks {Val : Type}
    (name : String) (cfg : MonitorConfig) (f : Val → Bool)
    (st : MonitorState Val) (now : Int) (e : String)
    (hen : cfg.enabled = true) (hdue : shouldCheck cfg st now = true) :
    check name cfg f st now (Except.error e) =
      (st, some ⟨name, AlertKind.ERROR, none, now, none, some e⟩) ∧
    memoryCollect false none (0, 0) = 0 ∧
    memoryCollect true none (0, 0) = 0 ∧
    metricsDiskCollect DiskUsageOutcome.permissionDenied = Except.ok 0 := by
  refine ⟨?_, rfl, rfl, rfl⟩
  unfold check
  simp [hen, hdue]

/-- Witness for the amended C9 at a concrete invocation. -/
theorem collect_fault_error_alert_but_zero_fallbacks_witness :
    check "memory" ⟨true, 1, 3⟩ (fun v : Int => decide (80 < v))
        ⟨0, none, AlertState.OK, 0⟩ 5 (Except.error "boom") =
      (⟨0, none, AlertState.OK, 0⟩,
       some ⟨"memory", AlertKind.ERROR, none, 5, none, some "boom"⟩) ∧
    memoryCollect false none (0, 0) = 0 ∧
    memoryCollect true none (0, 0) = 0 ∧
    metricsDiskCollect DiskUsageOutcome.permissionDenied = Except.ok 0 :=
  collect_fault_error_alert_but_zero_fallbacks "memory" ⟨true, 1, 3⟩
    (fun v : Int => decide (80 < v)) ⟨0, none, AlertState.OK, 0⟩ 5 "boom"
    rfl (by decide)

/-- **C9 counterexample.** The claim "collect never returns the value 0 in
place of a failed measurement" is false: with the memory total reading as 0
(a failure the code itself logs as "Failed to get memory information"),
`MemoryMonitor.collect` returns the plain value 0, and `DiskMonitor.collect`
of `app/core/metrics.py` returns `ok 0` on a `PermissionError` instead of an
error result. -/
theorem collect_zero_on_fault_counterexample :
    memoryCollect false none (0, 0) = 0 ∧
    metricsDiskCollect DiskUsageOutcome.permissionDenied = Except.ok 0 := by
  exact ⟨rfl, rfl⟩

/-! ## app/cli.py : the driving monitoring loop -/

/-- One iteration of the monitoring loop of `app/cli.py` for one monitor.
The loop gates on `monitor.should_check()`, then calls `monitor.collect()`
inside its own `try` — `r1` is that call's outcome.  If it raises, the loop
catches and logs the exception and `monitor.check()` is never invoked; only
when it succeeds does the loop call `monitor.check()`, which performs its
own collection, with outcome `r2`. -/
def loopTick {Val : Type} (name : String) (cfg : MonitorConfig)
    (f : Val → Bool) (st : MonitorState Val) (now : Int)
    (r1 r2 : Except String Val) : MonitorState Val × Option (Alert Val) :=
  if shouldCheck cfg st now then
    match r1 with
    | .error _ => (st, none)
    | .ok _ => check name cfg f st now r2
  else (st, none)

/-- The monitoring loop over successive ticks: each tick carries its time
and the outcomes of the loop's own `collect()` call and of the one inside
`Monitor.check`. -/
def runLoop {Val : Type} (name : String) (cfg : MonitorConfig)
    (f : Val → Bool) :
    MonitorState Val →
      List (Int × Except String Val × Except String Val) →
      MonitorState Val × List (Alert Val)
  | st, [] => (st, [])
  | st, (t, r1, r2) :: rest =>
      let step := loopTick name cfg f st t r1 r2
      let tail := runLoop name cfg f step.1 rest
      (tail.1, step.2.toList ++ tail.2)

/-! ## C10: what a persistently failing collector produces per tick -/

lemma runLoop_all_collect_errors {Val : Type} (name : String)
    (cfg : MonitorConfig) (f : Val → Bool) (st : MonitorState Val)
    (ticks : List (Int × String)) :
    runLoop name cfg f st
        (ticks.map fun p => (p.1, Except.error p.2, Except.error p.2)) =
      (st, []) := by
  induction ticks with
  | nil => simp [runLoop]
  | cons hd tl ih =>
      obtain ⟨t, e⟩ := hd
      simp only [List.map_cons, runLoop]
      have hstep : loopTick name cfg f st t (Except.error e)
          (Except.error e) = (st, none) := by
        unfold loopTick
        split
        · rfl
        · rfl
      rw [hstep, ih]
      simp

/-- **C10 counterexample.** Interval 5, two driving-loop ticks one second
apart (both due, since `last_check` never advances), the collector raising
on every call: the loop emits no alert at all — the raising `collect()` is
caught by the loop's own `try` before `monitor.check()` is reached — which
refutes "emitting an ERROR alert each tick". -/
theorem failing_collector_never_emits_counterexample :
    runLoop "disk" ⟨true, 5, 3⟩ (fun v : Int => decide (90 < v))
        ⟨-5, none, AlertState.OK, 0⟩
        [((0 : Int), Except.error "io error", Except.error "io error"),
         ((1 : Int), Except.error "io error", Except.error "io error")] =
      (⟨-5, none, AlertState.OK, 0⟩, []) := rfl

/-- **C10 (amended).** When `collect()` raises, `Monitor.check` — when it is
invoked — returns an ERROR alert and leaves the whole state, in particular
`last_check`, unchanged; due-ness is monotone in time, so a persistently
failing source stays due at every driving-loop tick.  However, the loop in
`app/cli.py` calls `monitor.collect()` itself inside a `try` before
`monitor.check()`, so a persistently raising collect is caught and logged by
the loop on every tick, `check` is never reached, and no ERROR alert is
emitted on any tick. -/
theorem collect_failure_logged_not_alerted {Val : Type} (name : String)
    (cfg : MonitorConfig) (f : Val → Bool) (st : MonitorState Val)
    (ticks : List (Int × String)) (hen : cfg.enabled = true) :
    (∀ (now : Int) (e : String), shouldCheck cfg st now = true →
      check name cfg f st now (Except.error e) =
        (st, some ⟨name, AlertKind.ERROR, none, now, none, some e⟩)) ∧
    (∀ t t' : Int, shouldCheck cfg st t = true → t ≤ t' →
      shouldCheck cfg st t' = true) ∧
    runLoop name cfg f st
        (ticks.map fun p => (p.1, Except.error p.2, Except.error p.2)) =
      (st, []) := by
  refine ⟨?_, ?_, runLoop_all_collect_errors name cfg f st ticks⟩
  · intro now e hdue
    unfold check
    simp [hen, hdue]
  · intro t t' h hle
    unfold shouldCheck at h ⊢
    simp only [decide_eq_true_eq] at h ⊢
    omega

/-- Witness for the amended C10: interval 5, ticks at times 0 and 1, the
collector raising on every call. -/
theorem collect_failure_logged_not_alerted_witness :
    (∀ (now : Int) (e : String),
      shouldCheck ⟨true, 5, 3⟩
          (⟨-5, none, AlertState.OK, 0⟩ : MonitorState Int) now = true →
      check "disk" ⟨true, 5, 3⟩ (fun v : Int => decide (90 < v))
          ⟨-5, none, AlertState.OK, 0⟩ now (Except.error e) =
        (⟨-5, none, AlertState.OK, 0⟩,
         some ⟨"disk", AlertKind.ERROR, none, now, none, some e⟩)) ∧
    (∀ t t' : Int,
      shouldCheck ⟨true, 5, 3⟩
          (⟨-5, none, AlertState.OK, 0⟩ : MonitorState Int) t = true →
      t ≤ t' →
      shouldCheck ⟨true, 5, 3⟩
          (⟨-5, none, AlertState.OK, 0⟩ : MonitorState Int) t' = true) ∧
    runLoop "disk" ⟨true, 5, 3⟩ (fun v : Int => decide (90 < v))
        ⟨-5, none, AlertState.OK, 0⟩
        ([((0 : Int), "io error"), ((1 : Int), "io error")].map
          fun p => (p.1, Except.error p.2, Except.error p.2)) =
      (⟨-5, none, AlertState.OK, 0⟩, []) :=
  collect_failure_logged_not_alerted "disk" ⟨true, 5, 3⟩
    (fun v : Int => decide (90 < v)) ⟨-5, none, AlertState.OK, 0⟩
    [((0 : Int), "io error"), ((1 : Int), "io error")] rfl

/-! ## app/core/alerts.py : AlertManager.process_alert -/

/-- A persisted alert record: the alert dictionary plus the nullable
`resolved_at` field (absent, i.e. `none`, until resolution). -/
structure AlertRecord where
  monitor : String
  state : AlertKind
  timestamp : Int
  resolvedAt : Option Int
deriving DecidableEq, Repr

/-- Python dict lookup on an insertion-ordered association list. -/
def dictGet {β : Type} (k : String) : List (String × β) → Option β
  | [] => none
  | (k', v) :: rest => if k' = k then some v else dictGet k rest

/-- Python dict assignment `d[k] = v`: replace in place or append. -/
def dictInsert {β : Type} (k : String) (v : β) :
    List (String × β) → List (String × β)
  | [] => [(k, v)]
  | (k', v') :: rest =>
      if k' = k then (k, v) :: rest else (k', v') :: dictInsert k v rest

/-- Python `del d[k]`. -/
def dictRemove {β : Type} (k : String) :
    List (String × β) → List (String × β)
  | [] => []
  | (k', v') :: rest =>
      if k' = k then rest else (k', v') :: dictRemove k rest

/-- A notification sent through `_send_notification` (its title names the
monitor and whether it is an alert or a resolution). -/
inductive Notice where
  | firing (monitor : String)
  | resolved (monitor : String)
deriving DecidableEq, Repr

/-- The Alert Manager's mutable state: the storage backend (abstract state
`σ`) and the in-memory `active_alerts` dict. -/
structure ManagerState (σ : Type) where
  storage : σ
  activeAlerts : List (String × AlertRecord)

/-- `AlertManager.process_alert`.  `save` and `resolve` are the storage
backend's `save_alert` / `resolve_alert`; `Except.error` models a raised
exception (caught and logged by the surrounding `try`).  Returns the new
manager state and the notifications sent.  A FIRING alert persists, records
as active and notifies inside one `try`: a raising `save` skips both the map
update and the notification.  An OK alert with no active entry is a no-op.
Any other state (in particular ERROR) matches no branch and does nothing. -/
def processAlert {σ : Type} (save : σ → AlertRecord → Except String σ)
    (resolve : σ → String → Int → Except String σ)
    (ms : ManagerState σ) (alert : Option AlertRecord) :
    ManagerState σ × List Notice :=
  match alert with
  | none => (ms, [])
  | some a =>
    match a.state with
    | .FIRING =>
        match save ms.storage a with
        | .ok s' =>
            ({ storage := s',
               activeAlerts := dictInsert a.monitor a ms.activeAlerts },
             [Notice.firing a.monitor])
        | .error _ => (ms, [])
    | .OK =>
        if (dictGet a.monitor ms.activeAlerts).isSome then
          match resolve ms.storage a.monitor a.timestamp with
          | .ok s' =>
              ({ storage := s',
                 activeAlerts := dictRemove a.monitor ms.activeAlerts },
               [Notice.resolved a.monitor])
          | .error _ => (ms, [])
        else (ms, [])
    | .ERROR => (ms, [])

/-! ## C4: what happens to an ERROR alert in process_alert -/

/-- **C4 counterexample.** The claim says a notification is sent for every
ERROR alert; in the code `process_alert` has branches only for FIRING and OK,
so a concrete ERROR alert produces no notification at all. -/
theorem error_alert_no_notification_counterexample :
    (processAlert (σ := Unit) (fun s _ => Except.ok s)
        (fun s _ _ => Except.ok s) ⟨(), []⟩
        (some ⟨"cpu", AlertKind.ERROR, 100, none⟩)).2 = [] := rfl

/-- **C4 (amended).** For every ERROR alert handed to
`AlertManager.process_alert`, nothing happens: no notification is sent and
neither the in-memory active-alert map nor the storage backend is modified. -/
theorem error_alert_is_ignored {σ : Type}
    (save : σ → AlertRecord → Except String σ)
    (resolve : σ → String → Int → Except String σ)
    (ms : ManagerState σ) (a : AlertRecord)
    (h : a.state = AlertKind.ERROR) :
    processAlert save resolve ms (some a) = (ms, []) := by
  simp [processAlert, h]

/-- Witness for the amended C4 at a concrete ERROR alert. -/
theorem error_alert_is_ignored_witness :
    processAlert (σ := Unit) (fun s _ => Except.ok s)
        (fun s _ _ => Except.ok s) ⟨(), [("disk", ⟨"disk", AlertKind.FIRING, 7, none⟩)]⟩
        (some ⟨"cpu", AlertKind.ERROR, 100, none⟩) =
      (⟨(), [("disk", ⟨"disk", AlertKind.FIRING, 7, none⟩)]⟩, []) :=
  error_alert_is_ignored (fun s _ => Except.ok s) (fun s _ _ => Except.ok s)
    ⟨(), [("disk", ⟨"disk", AlertKind.FIRING, 7, none⟩)]⟩
    ⟨"cpu", AlertKind.ERROR, 100, none⟩ rfl

/-! ## C5: persistence failure on FIRING suppresses the notification -/

/-- **C5 counterexample.** The claim says that when `save_alert` fails the
notification is still sent; in the code the notification call sits inside the
same `try` block after `save_alert`, so a raising save (which is what the
file backend does on error) yields no notification. -/
theorem firing_save_failure_counterexample :
    (processAlert (σ := Unit) (fun _ _ => Except.error "disk full")
        (fun s _ _ => Except.ok s) ⟨(), []⟩
        (some ⟨"cpu", AlertKind.FIRING, 100, none⟩)).2 = [] := rfl

/-- **C5 (amended).** For a FIRING alert, if the storage `save_alert` raises
(the file backend re-raises on error), the failure is caught and logged and
neither the active-map update nor the notification happens; the notification
is sent exactly when `save_alert` returns successfully. -/
theorem firing_notification_requires_successful_save {σ : Type}
    (save : σ → AlertRecord → Except String σ)
    (resolve : σ → String → Int → Except String σ)
    (ms : ManagerState σ) (a : AlertRecord)
    (hF : a.state = AlertKind.FIRING) :
    (∀ e, save ms.storage a = Except.error e →
      processAlert save resolve ms (some a) = (ms, [])) ∧
    (∀ s', save ms.storage a = Except.ok s' →
      processAlert save resolve ms (some a) =
        ({ storage := s',
           activeAlerts := dictInsert a.monitor a ms.activeAlerts },
         [Notice.firing a.monitor])) := by
  constructor
  · intro e he
    simp [processAlert, hF, he]
  · intro s' hs
    simp [processAlert, hF, hs]

/-- Witness for the amended C5 with a concretely failing save. -/
theorem firing_notification_requires_successful_save_witness :
    (∀ e, (Except.error "disk full" : Except String Unit) = Except.error e →
      processAlert (σ := Unit) (fun _ _ => Except.error "disk full")
          (fun s _ _ => Except.ok s) ⟨(), []⟩
          (some ⟨"cpu", AlertKind.FIRING, 100, none⟩) = (⟨(), []⟩, [])) ∧
    (∀ s', (Except.error "disk full" : Except String Unit) = Except.ok s' →
      processAlert (σ := Unit) (fun _ _ => Except.error "disk full")
          (fun s _ _ => Except.ok s) ⟨(), []⟩
          (some ⟨"cpu", AlertKind.FIRING, 100, none⟩) =
        ({ storage := s',
           activeAlerts :=
             dictInsert "cpu" ⟨"cpu", AlertKind.FIRING, 100, none⟩ [] },
         [Notice.firing "cpu"])) :=
  firing_notification_requires_successful_save
    (fun _ _ => Except.error "disk full") (fun s _ _ => Except.ok s)
    ⟨(), []⟩ ⟨"cpu", AlertKind.FIRING, 100, none⟩ rfl

/-! ## app/core/storage_file.py : FileAlertStorage -/

/-- Pruning configuration, from `config["storage"]["pruning"]`. -/
structure PruningConfig where
  enabled : Bool
  maxAgeDays : Int
  maxAlerts : Nat
deriving Repr

/-- The serialized document `{"active_alerts": {...}, "alert_history": [...]}`. -/
structure FileStoreData where
  activeAlerts : List (String × AlertRecord)
  alertHistory : List AlertRecord
deriving DecidableEq, Repr

/-- `FileAlertStorage._prune_alerts`: when pruning is enabled, drop history
entries whose timestamp is not strictly newer than `now - max_age_days` in
seconds, sort the rest newest-first, and keep at most `max_alerts`.  The
active-alert map is untouched. -/
def pruneAlerts (pc : PruningConfig) (now : Int) (data : FileStoreData) :
    FileStoreData :=
  if !pc.enabled then data
  else
    let cutoff := now - pc.maxAgeDays * 24 * 60 * 60
    let hist := data.alertHistory.filter fun a => decide (cutoff < a.timestamp)
    let hist := hist.insertionSort fun a b => b.timestamp ≤ a.timestamp
    { data with alertHistory := hist.take pc.maxAlerts }

/-- `FileAlertStorage.save_alert`: store under the monitor key in
`active_alerts`, append to `alert_history`, prune, write. -/
def fileSaveAlert (pc : PruningConfig) (now : Int) (data : FileStoreData)
    (alert : AlertRecord) : FileStoreData :=
  pruneAlerts pc now
    { activeAlerts := dictInsert alert.monitor alert data.activeAlerts,
      alertHistory := data.alertHistory ++ [alert] }

/-- `FileAlertStorage.resolve_alert`: if the monitor has an active alert, set
its `resolved_at`, remove it from `active_alerts`, append the resolved record
to history, prune, write; otherwise do nothing. -/
def fileResolveAlert (pc : PruningConfig) (now : Int) (data : FileStoreData)
    (monitorName : String) (resolvedAt : Int) : FileStoreData :=
  match dictGet monitorName data.activeAlerts with
  | none => data
  | some alert =>
      pruneAlerts pc now
        { activeAlerts := dictRemove monitorName data.activeAlerts,
          alertHistory :=
            data.alertHistory ++ [{ alert with resolvedAt := some resolvedAt }] }

/-- `FileAlertStorage.get_active_alerts`: the values of the active map. -/
def fileGetActiveAlerts (data : FileStoreData) : List AlertRecord :=
  data.activeAlerts.map (·.2)

/-- A mutating operation on the file store. -/
inductive FileStoreOp where
  | save (now : Int) (alert : AlertRecord)
  | resolve (now : Int) (monitorName : String) (resolvedAt : Int)
deriving Repr

def applyFileStoreOp (pc : PruningConfig) (data : FileStoreData) :
    FileStoreOp → FileStoreData
  | .save now a => fileSaveAlert pc now data a
  | .resolve now m t => fileResolveAlert pc now data m t

/-- A file store state reached from the initial empty document
(`FileAlertStorage.__init__` writes `{"active_alerts": {}, "alert_history": []}`)
by a sequence of save/resolve operations. -/
def runFileStore (pc : PruningConfig) (ops : List FileStoreOp) : FileStoreData :=
  ops.foldl (applyFileStoreOp pc) ⟨[], []⟩

/-! ## app/core/storage_postgres.py : PostgresAlertStorage -/

/-- A row of the `alerts` table. -/
structure PgAlertRow where
  id : Nat
  hostname : String
  monitorName : String
  alertState : String
  createdAt : Int
  resolvedAt : Option Int
deriving DecidableEq, Repr

/-- `PostgresAlertStorage.get_active_alerts`: rows with `resolved_at IS NULL`,
ordered by `created_at` descending. -/
def pgGetActiveAlerts (table : List PgAlertRow) : List PgAlertRow :=
  (table.filter fun r => r.resolvedAt.isNone).insertionSort
    fun a b => b.createdAt ≤ a.createdAt

/-- Folding `AlertManager.process_alert` over a stream of alert events,
keeping the manager state. -/
def runProcessAlerts {σ : Type} (save : σ → AlertRecord → Except String σ)
    (resolve : σ → String → Int → Except String σ) (ms : ManagerState σ)
    (alerts : List (Option AlertRecord)) : ManagerState σ :=
  alerts.foldl (fun s a => (processAlert save resolve s a).1) ms

/-- `AlertManager.get_active_alerts`: the values of the in-memory map. -/
def mgrGetActiveAlerts {σ : Type} (ms : ManagerState σ) : List AlertRecord :=
  ms.activeAlerts.map (·.2)

/-! ## C6: no active-alert view ever shows a resolved record -/

lemma mem_dictInsert {β : Type} (k : String) (v : β)
    (l : List (String × β)) (p : String × β) (hp : p ∈ dictInsert k v l) :
    p = (k, v) ∨ p ∈ l := by
  induction l with
  | nil =>
      simp [dictInsert] at hp
      exact Or.inl hp
  | cons hd tl ih =>
      obtain ⟨k', v'⟩ := hd
      by_cases hk : k' = k
      · rw [dictInsert, if_pos hk] at hp
        rcases List.mem_cons.mp hp with h | h
        · exact Or.inl h
        · exact Or.inr (List.mem_cons_of_mem _ h)
      · rw [dictInsert, if_neg hk] at hp
        rcases List.mem_cons.mp hp with h | h
        · exact Or.inr (h ▸ List.mem_cons_self _ _)
        · rcases ih h with h2 | h2
          · exact Or.inl h2
          · exact Or.inr (List.mem_cons_of_mem _ h2)

lemma mem_dictRemove {β : Type} (k : String)
    (l : List (String × β)) (p : String × β) (hp : p ∈ dictRemove k l) :
    p ∈ l := by
  induction l with
  | nil => simp [dictRemove] at hp
  | cons hd tl ih =>
      obtain ⟨k', v'⟩ := hd
      by_cases hk : k' = k
      · rw [dictRemove, if_pos hk] at hp
        exact List.mem_cons_of_mem _ hp
      · rw [dictRemove, if_neg hk] at hp
        rcases List.mem_cons.mp hp with h | h
        · exact h ▸ List.mem_cons_self _ _
        · exact List.mem_cons_of_mem _ (ih h)

lemma pruneAlerts_activeAlerts (pc : PruningConfig) (now : Int)
    (data : FileStoreData) :
    (pruneAlerts pc now data).activeAlerts = data.activeAlerts := by
  unfold pruneAlerts
  split
  · rfl
  · rfl

lemma fileStore_step_invariant (pc : PruningConfig) (data : FileStoreData)
    (op : FileStoreOp)
    (hinv : ∀ p ∈ data.activeAlerts, p.2.resolvedAt = none)
    (hop : ∀ now a, op = FileStoreOp.save now a → a.resolvedAt = none) :
    ∀ p ∈ (applyFileStoreOp pc data op).activeAlerts, p.2.resolvedAt = none := by
  intro p hp
  cases op with
  | save now a =>
      have ha := hop now a rfl
      simp only [applyFileStoreOp, fileSaveAlert] at hp
      rw [pruneAlerts_activeAlerts] at hp
      rcases mem_dictInsert _ _ _ _ hp with h | h
      · rw [h]
        exact ha
      · exact hinv p h
  | resolve now m t =>
      simp only [applyFileStoreOp, fileResolveAlert] at hp
      cases hg : dictGet m data.activeAlerts with
      | none =>
          rw [hg] at hp
          exact hinv p hp
      | some alert =>
          rw [hg] at hp
          rw [pruneAlerts_activeAlerts] at hp
          exact hinv p (mem_dictRemove _ _ _ hp)

lemma fileStore_run_invariant (pc : PruningConfig) :
    ∀ (ops : List FileStoreOp) (data : FileStoreData),
      (∀ p ∈ data.activeAlerts, p.2.resolvedAt = none) →
      (∀ op ∈ ops, ∀ now a, op = FileStoreOp.save now a → a.resolvedAt = none) →
      ∀ p ∈ (ops.foldl (applyFileStoreOp pc) data).activeAlerts,
        p.2.resolvedAt = none := by
  intro ops
  induction ops with
  | nil => intro data hinv _; simpa using hinv
  | cons op rest ih =>
      intro data hinv hops
      simp only [List.foldl_cons]
      exact ih _
        (fileStore_step_invariant pc data op hinv
          (hops op (List.mem_cons_self _ _)))
        (fun o ho => hops o (List.mem_cons_of_mem _ ho))

lemma processAlert_active_invariant {σ : Type}
    (save : σ → AlertRecord → Except String σ)
    (resolve : σ → String → Int → Except String σ)
    (ms : ManagerState σ) (a : Option AlertRecord)
    (hinv : ∀ p ∈ ms.activeAlerts, p.2.resolvedAt = none)
    (ha : ∀ b, a = some b → b.resolvedAt = none) :
    ∀ p ∈ (processAlert save resolve ms a).1.activeAlerts,
      p.2.resolvedAt = none := by
  intro p hp
  cases a with
  | none => exact hinv p hp
  | some b =>
      have hb := ha b rfl
      cases hst : b.state with
      | FIRING =>
          cases hsave : save ms.storage b with
          | ok s' =>
              simp only [processAlert, hst, hsave] at hp
              rcases mem_dictInsert _ _ _ _ hp with h | h
              · rw [h]
                exact hb
              · exact hinv p h
          | error e =>
              simp only [processAlert, hst, hsave] at hp
              exact hinv p hp
      | OK =>
          by_cases hact : (dictGet b.monitor ms.activeAlerts).isSome = true
          · cases hres : resolve ms.storage b.monitor b.timestamp with
            | ok s' =>
                simp only [processAlert, hst, hact, if_true, hres] at hp
                exact hinv p (mem_dictRemove _ _ _ hp)
            | error e =>
                simp only [processAlert, hst, hact, if_true, hres] at hp
                exact hinv p hp
          · simp only [processAlert, hst, hact, if_false] at hp
            exact hinv p hp
      | ERROR =>
          simp only [processAlert, hst] at hp
          exact hinv p hp

lemma runProcessAlerts_invariant {σ : Type}
    (save : σ → AlertRecord → Except String σ)
    (resolve : σ → String → Int → Except String σ) :
    ∀ (alerts : List (Option AlertRecord)) (ms : ManagerState σ),
      (∀ p ∈ ms.activeAlerts, p.2.resolvedAt = none) →
      (∀ b, some b ∈ alerts → b.resolvedAt = none) →
      ∀ p ∈ (runProcessAlerts save resolve ms alerts).activeAlerts,
        p.2.resolvedAt = none := by
  intro alerts
  induction alerts with
  | nil => intro ms hinv _; simpa [runProcessAlerts] using hinv
  | cons a rest ih =>
      intro ms hinv has
      simp only [runProcessAlerts, List.foldl_cons]
      exact ih _
        (processAlert_active_invariant save resolve ms a hinv
          (fun b hb => has b (hb ▸ List.mem_cons_self _ _)))
        (fun b hb => has b (List.mem_cons_of_mem _ hb))

/-- **C6.** No active-alert view ever returns a record with non-null
`resolved_at`: (file store) any state reached from the empty document by
saves of unresolved records and resolves satisfies it — `resolve_alert`
stamps `resolved_at` only on the copy it moves to history and removes the
entry from the active map; (relational store) `get_active_alerts` filters on
`resolved_at IS NULL`; (manager) the in-memory map, seeded with unresolved
records and updated by `process_alert`, also satisfies it. -/
theorem active_alerts_never_resolved {σ : Type} (pc : PruningConfig)
    (ops : List FileStoreOp) (table : List PgAlertRow)
    (save : σ → AlertRecord → Except String σ)
    (resolve : σ → String → Int → Except String σ)
    (ms : ManagerState σ) (alerts : List (Option AlertRecord))
    (hops : ∀ op ∈ ops, ∀ now a, op = FileStoreOp.save now a →
      a.resolvedAt = none)
    (hms : ∀ p ∈ ms.activeAlerts, p.2.resolvedAt = none)
    (halerts : ∀ b, some b ∈ alerts → b.resolvedAt = none) :
    (∀ r ∈ fileGetActiveAlerts (runFileStore pc ops), r.resolvedAt = none) ∧
    (∀ r ∈ pgGetActiveAlerts table, r.resolvedAt = none) ∧
    (∀ r ∈ mgrGetActiveAlerts (runProcessAlerts save resolve ms alerts),
      r.resolvedAt = none) := by
  refine ⟨?_, ?_, ?_⟩
  · intro r hr
    simp only [fileGetActiveAlerts, List.mem_map] at hr
    obtain ⟨p, hp, hpr⟩ := hr
    rw [← hpr]
    exact fileStore_run_invariant pc ops ⟨[], []⟩ (by simp) hops p hp
  · intro r hr
    rw [pgGetActiveAlerts, List.mem_insertionSort] at hr
    have := (List.mem_filter.mp hr).2
    simpa [Option.isNone_iff_eq_none] using this
  · intro r hr
    simp only [mgrGetActiveAlerts, List.mem_map] at hr
    obtain ⟨p, hp, hpr⟩ := hr
    rw [← hpr]
    exact runProcessAlerts_invariant save resolve alerts ms hms halerts p hp

/-- Witness for C6: a concrete run with one save, one resolve, a table with
one resolved and one active row, and a manager run over a FIRING then an OK
event. -/
theorem active_alerts_never_resolved_witness :
    (∀ r ∈ fileGetActiveAlerts (runFileStore ⟨true, 30, 1000⟩
        [FileStoreOp.save 100 ⟨"cpu", AlertKind.FIRING, 100, none⟩,
         FileStoreOp.save 150 ⟨"mem", AlertKind.FIRING, 150, none⟩,
         FileStoreOp.resolve 200 "cpu" 200]), r.resolvedAt = none) ∧
    (∀ r ∈ pgGetActiveAlerts
        [⟨1, "h", "cpu", "FIRING", 100, none⟩,
         ⟨2, "h", "mem", "RESOLVED", 50, some 90⟩], r.resolvedAt = none) ∧
    (∀ r ∈ mgrGetActiveAlerts (runProcessAlerts (σ := Unit)
        (fun s _ => Except.ok s) (fun s _ _ => Except.ok s) ⟨(), []⟩
        [some ⟨"cpu", AlertKind.FIRING, 100, none⟩,
         some ⟨"cpu", AlertKind.OK, 200, none⟩]), r.resolvedAt = none) :=
  active_alerts_never_resolved ⟨true, 30, 1000⟩
    [FileStoreOp.save 100 ⟨"cpu", AlertKind.FIRING, 100, none⟩,
     FileStoreOp.save 150 ⟨"mem", AlertKind.FIRING, 150, none⟩,
     FileStoreOp.resolve 200 "cpu" 200]
    [⟨1, "h", "cpu", "FIRING", 100, none⟩,
     ⟨2, "h", "mem", "RESOLVED", 50, some 90⟩]
    (fun s _ => Except.ok s) (fun s _ _ => Except.ok s) ⟨(), []⟩
    [some ⟨"cpu", AlertKind.FIRING, 100, none⟩,
     some ⟨"cpu", AlertKind.OK, 200, none⟩]
    (by intro op hop now a he
        fin_cases hop
        · simp only [FileStoreOp.save.injEq] at he
          rw [← he.2]
        · simp only [FileStoreOp.save.injEq] at he
          rw [← he.2]
        · simp at he)
    (by simp)
    (by intro b hb
        fin_cases hb <;> rfl)

/-! ## C7: pruning keeps non-expired records up to the cap -/

/-- **C7.** With pruning enabled, `max_age_days = 30` and `max_alerts = 2`,
a history holding records aged 1, 2 and 40 days (timestamps 9913600, 9827200
and 6544000 at `now = 10000000`) prunes to exactly the 1- and 2-day records,
newest first; and in general, with pruning enabled, every surviving history
record is strictly newer than the age cutoff and at most `max_alerts`
records survive. -/
theorem prune_drops_expired_then_caps (pc : PruningConfig) (now : Int)
    (data : FileStoreData) (hen : pc.enabled = true) :
    pruneAlerts ⟨true, 30, 2⟩ 10000000
        ⟨[], [⟨"m", AlertKind.FIRING, 6544000, none⟩,
              ⟨"m", AlertKind.FIRING, 9827200, none⟩,
              ⟨"m", AlertKind.FIRING, 9913600, none⟩]⟩ =
      ⟨[], [⟨"m", AlertKind.FIRING, 9913600, none⟩,
            ⟨"m", AlertKind.FIRING, 9827200, none⟩]⟩ ∧
    (∀ r ∈ (pruneAlerts pc now data).alertHistory,
      now - pc.maxAgeDays * 24 * 60 * 60 < r.timestamp) ∧
    (pruneAlerts pc now data).alertHistory.length ≤ pc.maxAlerts := by
  refine ⟨by decide, ?_, ?_⟩
  · intro r hr
    unfold pruneAlerts at hr
    rw [hen] at hr
    simp only [Bool.not_true, Bool.false_eq_true, if_false] at hr
    have h1 := List.take_subset _ _ hr
    rw [List.mem_insertionSort] at h1
    have h2 := (List.mem_filter.mp h1).2
    simpa using h2
  · unfold pruneAlerts
    rw [hen]
    simp only [Bool.not_true, Bool.false_eq_true, if_false]
    exact List.length_take_le _ _

/-- Witness for C7; the general bounds instantiated on the concrete
three-record scenario. -/
theorem prune_drops_expired_then_caps_witness :
    pruneAlerts ⟨true, 30, 2⟩ 10000000
        ⟨[], [⟨"m", AlertKind.FIRING, 6544000, none⟩,
              ⟨"m", AlertKind.FIRING, 9827200, none⟩,
              ⟨"m", AlertKind.FIRING, 9913600, none⟩]⟩ =
      ⟨[], [⟨"m", AlertKind.FIRING, 9913600, none⟩,
            ⟨"m", AlertKind.FIRING, 9827200, none⟩]⟩ ∧
    (∀ r ∈ (pruneAlerts ⟨true, 30, 2⟩ 10000000
        ⟨[], [⟨"m", AlertKind.FIRING, 6544000, none⟩,
              ⟨"m", AlertKind.FIRING, 9827200, none⟩,
              ⟨"m", AlertKind.FIRING, 9913600, none⟩]⟩).alertHistory,
      10000000 - 30 * 24 * 60 * 60 < r.timestamp) ∧
    (pruneAlerts ⟨true, 30, 2⟩ 10000000
        ⟨[], [⟨"m", AlertKind.FIRING, 6544000, none⟩,
              ⟨"m", AlertKind.FIRING, 9827200, none⟩,
              ⟨"m", AlertKind.FIRING, 9913600, none⟩]⟩).alertHistory.length ≤ 2 :=
  prune_drops_expired_then_caps ⟨true, 30, 2⟩ 10000000
    ⟨[], [⟨"m", AlertKind.FIRING, 6544000, none⟩,
          ⟨"m", AlertKind.FIRING, 9827200, none⟩,
          ⟨"m", AlertKind.FIRING, 9913600, none⟩]⟩ rfl

/-! ## app/core/storage_postgres.py : connection retry loop in __init__ -/

/-- Outcome of one connection attempt
(`create_engine` + `SELECT 1` inside the retry loop). -/
inductive ConnectOutcome where
  | success
  | operationalError
  | otherError (msg : String)
deriving DecidableEq, Repr

/-- Result of `PostgresAlertStorage.__init__`: either the object is
constructed or construction raises; both record how many connection attempts
were made and how many fixed-length `time.sleep(retry_delay)` pauses
happened. -/
inductive InitResult where
  | constructed (attempts : Nat) (sleeps : Nat)
  | failed (attempts : Nat) (sleeps : Nat)
deriving DecidableEq, Repr

/-- The `for attempt in range(max_retries)` retry loop of
`PostgresAlertStorage.__init__`: on success break; on `OperationalError`
sleep and continue unless this was the last attempt, in which case re-raise;
on any other exception re-raise immediately. -/
def postgresInitRetry (outcomes : Nat → ConnectOutcome)
    (maxRetries attempt sleeps : Nat) : InitResult :=
  if _h : attempt < maxRetries then
    match outcomes attempt with
    | .success => .constructed (attempt + 1) sleeps
    | .operationalError =>
        if attempt < maxRetries - 1 then
          postgresInitRetry outcomes maxRetries (attempt + 1) (sleeps + 1)
        else .failed (attempt + 1) sleeps
    | .otherError _ => .failed (attempt + 1) sleeps
  else .constructed attempt sleeps
termination_by maxRetries - attempt
decreasing_by omega

/-- The source pins `max_retries = 5` and `retry_delay = 5` seconds. -/
def maxRetriesSource : Nat := 5

/-- `retry_delay = 5` seconds between attempts. -/
def retryDelaySource : Nat := 5

/-- `PostgresAlertStorage.__init__` as shipped. -/
def postgresInit (outcomes : Nat → ConnectOutcome) : InitResult :=
  postgresInitRetry outcomes maxRetriesSource 0 0

/-! ## C8: an unreachable DSN exhausts exactly max_retries attempts -/

lemma postgresInitRetry_all_fail (outcomes : Nat → ConnectOutcome)
    (maxRetries : Nat)
    (hall : ∀ i, i < maxRetries → outcomes i = ConnectOutcome.operationalError) :
    ∀ (d attempt sleeps : Nat), maxRetries - attempt = d →
      attempt < maxRetries →
      postgresInitRetry outcomes maxRetries attempt sleeps =
        InitResult.failed maxRetries (sleeps + (maxRetries - 1 - attempt)) := by
  intro d
  induction d with
  | zero => intro attempt sleeps hd hlt; omega
  | succ n ih =>
      intro attempt sleeps hd hlt
      unfold postgresInitRetry
      rw [dif_pos hlt, hall attempt hlt]
      by_cases h2 : attempt < maxRetries - 1
      · rw [if_pos h2, ih (attempt + 1) (sleeps + 1) (by omega) (by omega)]
        have h5 : sleeps + 1 + (maxRetries - 1 - (attempt + 1)) =
            sleeps + (maxRetries - 1 - attempt) := by omega
        rw [h5]
      · rw [if_neg h2]
        have h3 : attempt + 1 = maxRetries := by omega
        have h4 : sleeps + (maxRetries - 1 - attempt) = sleeps := by omega
        rw [h3, h4]

/-- **C8.** If every connection attempt raises `OperationalError` (an
unreachable DSN), the constructor retry loop with bound `max_retries ≥ 1`
makes exactly `max_retries` attempts, sleeping the fixed delay between
consecutive attempts (`max_retries - 1` sleeps), and then construction
fails; in particular with a bound of 2 it attempts exactly 2 connections.
(The shipped source pins the bound: `max_retries = 5`.) -/
theorem postgres_init_unreachable_exhausts_retries
    (outcomes : Nat → ConnectOutcome) (maxRetries : Nat)
    (h1 : 1 ≤ maxRetries)
    (hall : ∀ i, i < maxRetries → outcomes i = ConnectOutcome.operationalError) :
    postgresInitRetry outcomes maxRetries 0 0 =
      InitResult.failed maxRetries (maxRetries - 1) := by
  have := postgresInitRetry_all_fail outcomes maxRetries hall
    (maxRetries - 0) 0 0 rfl (by omega)
  simpa using this

/-- Witness for C8 at `max_retries = 2` with every attempt failing: exactly
2 attempts, one sleep, failed construction. -/
theorem postgres_init_unreachable_exhausts_retries_witness :
    postgresInitRetry (fun _ => ConnectOutcome.operationalError) 2 0 0 =
      InitResult.failed 2 1 :=
  postgres_init_unreachable_exhausts_retries
    (fun _ => ConnectOutcome.operationalError) 2 (by decide)
    (fun i _ => rfl)

/-- Witness for C1 at a concrete invocation: alert_count 2, counter already
at 1, breaching sample, due check, OK state. -/
theorem check_firing_only_on_sustained_breach_witness :
    check "cpu" ⟨true, 1, 2⟩ (fun v : Int => decide (80 < v))
        ⟨0, none, AlertState.OK, 1⟩ 5 (Except.ok 90) =
      (⟨5, some 90, AlertState.FIRING, 2⟩,
       some ⟨"cpu", AlertKind.FIRING, some 90, 5, some 2, none⟩) ∧
      ((∃ v, (Except.ok (90 : Int) : Except String Int) = Except.ok v ∧
          decide (80 < v) = true) ∧
        AlertState.OK = AlertState.OK ∧
        (2 : Nat) = 1 + 1 ∧ (2 : Nat) ≤ 2) :=
  ⟨by decide,
   check_firing_only_on_sustained_breach "cpu" ⟨true, 1, 2⟩
     (fun v : Int => decide (80 < v)) ⟨0, none, AlertState.OK, 1⟩ 5
     (Except.ok 90) ⟨5, some 90, AlertState.FIRING, 2⟩
     ⟨"cpu", AlertKind.FIRING, some 90, 5, some 2, none⟩ (by decide) rfl⟩

end SME
